import Mathlib

/-!
Shallow embedding of the rk3568-5g-rover vehicle system
(src/vehicle_system/src), covering the motor command channel
(motor_controller.py), the camera capture manager (camera_manager.py)
and the WebRTC peer registry (webrtc_service.py), together with the
theorems settling the specification claims about them.
-/

/-- Motor direction enumeration, from `MotorDirection` in motor_controller.py. -/
inductive MotorDirection where
  | forward
  | backward
  | left
  | right
  | stop
deriving DecidableEq, Repr

/-- The Python `MotorDirection.name` string of each enumeration member. -/
def MotorDirection.pyName : MotorDirection → String
  | .forward => "FORWARD"
  | .backward => "BACKWARD"
  | .left => "LEFT"
  | .right => "RIGHT"
  | .stop => "STOP"

/-- The mutable fields of `MotorController` that the motion operations,
the queue and the command loop touch (motor_controller.py). -/
structure MotorState where
  is_connected : Bool
  left_speed : Int
  right_speed : Int
  current_direction : MotorDirection
  command_queue : List (Int × Int)
  commands_sent : Nat
  command_errors : Nat
deriving DecidableEq, Repr

/-- `max(0, min(255, speed))`: the clamp applied by the directional
motion methods of `MotorController`. -/
def clampSpeed0 (speed : Int) : Int := max 0 (min 255 speed)

/-- `max(-255, min(255, speed))`: the clamp applied by
`MotorController.set_motor_speed`. -/
def clampSpeed (speed : Int) : Int := max (-255) (min 255 speed)

/-- `MotorController._send_motor_command`: when connected, append the
command pair to the queue; otherwise return without doing anything. -/
def sendMotorCommand (left_speed right_speed : Int) (st : MotorState) : MotorState :=
  if st.is_connected then
    { st with command_queue := st.command_queue ++ [(left_speed, right_speed)] }
  else
    st

/-- `MotorController.move_forward`. -/
def moveForward (speed : Int) (st : MotorState) : MotorState :=
  let s := clampSpeed0 speed
  sendMotorCommand s s
    { st with left_speed := s, right_speed := s, current_direction := .forward }

/-- `MotorController.move_backward`. -/
def moveBackward (speed : Int) (st : MotorState) : MotorState :=
  let s := clampSpeed0 speed
  sendMotorCommand (-s) (-s)
    { st with left_speed := -s, right_speed := -s, current_direction := .backward }

/-- `MotorController.turn_left` (Python `speed // 2` on the clamped
nonnegative speed coincides with `Int` division). -/
def turnLeft (speed : Int) (st : MotorState) : MotorState :=
  let s := clampSpeed0 speed
  sendMotorCommand (s / 2) s
    { st with left_speed := s / 2, right_speed := s, current_direction := .left }

/-- `MotorController.turn_right`. -/
def turnRight (speed : Int) (st : MotorState) : MotorState :=
  let s := clampSpeed0 speed
  sendMotorCommand s (s / 2)
    { st with left_speed := s, right_speed := s / 2, current_direction := .right }

/-- `MotorController.stop`. -/
def motorStop (st : MotorState) : MotorState :=
  sendMotorCommand 0 0
    { st with left_speed := 0, right_speed := 0, current_direction := .stop }

/-- `MotorController.set_motor_speed`. -/
def setMotorSpeed (left_speed right_speed : Int) (st : MotorState) : MotorState :=
  let l := clampSpeed left_speed
  let r := clampSpeed right_speed
  sendMotorCommand l r { st with left_speed := l, right_speed := r }

/-- `MotorController.emergency_stop`: logs a warning and calls `stop()`. -/
def emergencyStop (st : MotorState) : MotorState := motorStop st

/-- `MotorController._speed_to_byte`: signed speed to unsigned byte,
`min(255, speed)` for nonnegative speeds, `256 + speed` otherwise. -/
def speedToByte (speed : Int) : Int :=
  if 0 ≤ speed then min 255 speed else 256 + speed

/-- Modelled from the spec: the receiver-side decoder `byte_to_speed`
(named in §8 of the spec, absent from src/ since it lives in the motor
driver board firmware): the two's-complement reading of an 8-bit byte. -/
def byteToSpeed (b : Int) : Int :=
  if b < 128 then b else b - 256

/-- The byte value of a speed as it enters the `bytearray` in
`_transmit_command`, as a natural number. -/
def speedByte (speed : Int) : Nat := (speedToByte speed).toNat

/-- The running XOR checksum computed by the loop in
`MotorController._transmit_command` (`checksum ^= byte` starting at 0). -/
def xorChecksum (bs : List Nat) : Nat := bs.foldl (fun a b => a ^^^ b) 0

/-- `MotorController._transmit_command`: the 5-byte serial frame
`[0xAA, 0x55, left_byte, right_byte, checksum]` written to the port. -/
def transmitFrame (left_speed right_speed : Int) : List Nat :=
  let left_byte := speedByte left_speed
  let right_byte := speedByte right_speed
  let frame := [0xAA, 0x55, left_byte, right_byte]
  frame ++ [xorChecksum frame]

/-- One iteration of `MotorController._command_loop`: pop the oldest
queued command if any and transmit it (`_transmit_command` writes the
frame and bumps `commands_sent` only when connected). Returns the new
state and the frame written to the serial port this tick, if any. -/
def commandLoopTick (st : MotorState) : MotorState × Option (List Nat) :=
  match st.command_queue with
  | [] => (st, none)
  | (l, r) :: rest =>
    if st.is_connected then
      ({ st with command_queue := rest, commands_sent := st.commands_sent + 1 },
       some (transmitFrame l r))
    else
      ({ st with command_queue := rest }, none)

/-- Run `n` iterations of the command loop, collecting the frames
written to the serial port in order. -/
def runTicks : MotorState → Nat → MotorState × List (List Nat)
  | st, 0 => (st, [])
  | st, n + 1 =>
    let (st1, out) := commandLoopTick st
    let (st2, outs) := runTicks st1 n
    (st2, out.toList ++ outs)

/-- The status snapshot fields of `MotorController.get_status` that the
embedding models (`last_command_time` is wall-clock and omitted). -/
structure MotorStatus where
  is_connected : Bool
  left_speed : Int
  right_speed : Int
  current_direction : String
  commands_sent : Nat
  command_errors : Nat
deriving DecidableEq, Repr

/-- `MotorController.get_status`. -/
def getStatus (st : MotorState) : MotorStatus :=
  { is_connected := st.is_connected
    left_speed := st.left_speed
    right_speed := st.right_speed
    current_direction := st.current_direction.pyName
    commands_sent := st.commands_sent
    command_errors := st.command_errors }

/-- One append to a `collections.deque(maxlen=N)`: the bounded frame
buffers of `CameraManager` (`deque(maxlen=3)`); appending while full
discards the oldest (leftmost) element. -/
def pushBounded {α : Type} (N : Nat) (buf : List α) (x : α) : List α :=
  if buf.length < N then buf ++ [x] else buf.drop 1 ++ [x]

/-- `buffer[-1] if buffer else None`: the body of
`CameraManager.get_front_frame` / `get_rear_frame`. -/
def bufferLatest {α : Type} (buf : List α) : Option α := buf.getLast?

/-- The mutable fields of `USBCamera` that `read_frame` touches. -/
structure CamState where
  is_opened : Bool
  frame_count : Nat
  error_count : Nat
deriving DecidableEq, Repr

/-- The consecutive-read-error count past which `USBCamera.read_frame`
logs its degraded-device warning (`if self.error_count > 10`). -/
def cameraErrorThreshold : Nat := 10

/-- `USBCamera.read_frame`. `readOk` is whether `self.cap.read()`
returned a frame. Result: the new camera state, the returned frame (as
an opaque token) and whether the degraded-device warning was logged. -/
def readFrame (st : CamState) (readOk : Bool) : CamState × Option Unit × Bool :=
  if st.is_opened = false then (st, none, false)
  else if readOk then
    ({ st with error_count := 0, frame_count := st.frame_count + 1 }, some (), false)
  else
    ({ st with error_count := st.error_count + 1 }, none,
     decide (st.error_count + 1 > cameraErrorThreshold))

/-- Iterated reads: what `CameraManager._capture_loop` does to one
camera over a sequence of device read outcomes — each iteration calls
`read_frame` and carries on regardless of the outcome. -/
def readMany (st : CamState) : List Bool → CamState
  | [] => st
  | ok :: rest => readMany (readFrame st ok).1 rest

/-- Outcome of `CameraManager.initialize` as a function of which
cameras are enabled in the configuration and which `USBCamera.open`
calls succeed. `front_active`/`rear_active`: whether the corresponding
`self.front_camera`/`self.rear_camera` field is left non-None. -/
structure CamInitResult where
  success : Bool
  front_active : Bool
  rear_active : Bool
deriving DecidableEq, Repr

/-- `CameraManager.initialize`: each enabled camera is constructed and
opened; a camera whose `open()` fails is reset to None; the overall
result is True as soon as at least one `open()` succeeded. -/
def cameraInit (front_enabled front_opens rear_enabled rear_opens : Bool) :
    CamInitResult :=
  let front_active := front_enabled && front_opens
  let rear_active := rear_enabled && rear_opens
  { success := front_active || rear_active
    front_active := front_active
    rear_active := rear_active }

/-- `WebRTCSignalingServer.close_peer_connection`: if the peer id is
registered, close the underlying connection and delete the registry
entry; otherwise do nothing. The registry (`self.peers` dict) is
modelled by its key list; the second component counts `pc.close()`
calls performed. -/
def closePeerConnection (peers : List String) (peer_id : String) :
    List String × Nat :=
  if peer_id ∈ peers then (peers.erase peer_id, 1) else (peers, 0)

/-- The `failed` branch of the `on_connectionstatechange` handler in
`WebRTCSignalingServer.create_peer_connection`: it tears the session
down via `close_peer_connection`. -/
def onConnectionFailed (peers : List String) (peer_id : String) :
    List String × Nat :=
  closePeerConnection peers peer_id

/-! Helper lemmas shared by the claim theorems. -/

theorem clampSpeed0_eq_self {s : Int} (h0 : 0 ≤ s) (h255 : s ≤ 255) :
    clampSpeed0 s = s := by
  unfold clampSpeed0; omega

theorem clampSpeed_eq_self {s : Int} (h0 : -255 ≤ s) (h255 : s ≤ 255) :
    clampSpeed s = s := by
  unfold clampSpeed; omega

theorem runTicks_drains (q : List (Int × Int)) (st : MotorState)
    (hq : st.command_queue = q) (hc : st.is_connected = true) :
    (runTicks st q.length).1.command_queue = [] ∧
    (runTicks st q.length).1.is_connected = true ∧
    (runTicks st q.length).2 = q.map fun p => transmitFrame p.1 p.2 := by
  induction q generalizing st with
  | nil => simpa [runTicks] using ⟨hq, hc⟩
  | cons a rest ih =>
    obtain ⟨l, r⟩ := a
    have htick : commandLoopTick st =
        ({ st with command_queue := rest, commands_sent := st.commands_sent + 1 },
         some (transmitFrame l r)) := by
      simp [commandLoopTick, hq, hc]
    have ihst := ih { st with command_queue := rest,
                              commands_sent := st.commands_sent + 1 } rfl hc
    simp only [List.length_cons, runTicks, htick]
    exact ⟨ihst.1, ihst.2.1, by simp [ihst.2.2]⟩

/-- C3 counterexample: `_speed_to_byte` is not injective on [-255,255]
(255 and -1 collide on byte 255), so it is not a bijection from
[-255,255] onto 0..255, and the two's-complement round trip fails at
s = 200 (byte 200 decodes to -56) and at s = 255. -/
theorem c3_counterexample :
    speedToByte 255 = speedToByte (-1) ∧ (255 : Int) ≠ -1 ∧
    byteToSpeed (speedToByte 200) = -56 ∧
    byteToSpeed (speedToByte 255) ≠ 255 := by
  refine ⟨by unfold speedToByte; decide, by decide, ?_, ?_⟩ <;>
    (unfold speedToByte byteToSpeed; decide)

/-- C3 (amended): restricted to the 8-bit two's-complement range
[-128,127], `_speed_to_byte` is a bijection onto 0..255 and the round
trip with the spec-modelled receiver decoder `byte_to_speed` holds in
both directions; over the full [-255,255] the map is only surjective. -/
theorem c3_round_trip_on_twos_complement_range (s b : Int)
    (hs1 : -128 ≤ s) (hs2 : s ≤ 127) (hb1 : 0 ≤ b) (hb2 : b ≤ 255) :
    byteToSpeed (speedToByte s) = s ∧
    speedToByte (byteToSpeed b) = b ∧
    0 ≤ speedToByte s ∧ speedToByte s ≤ 255 ∧
    -128 ≤ byteToSpeed b ∧ byteToSpeed b ≤ 127 := by
  unfold speedToByte byteToSpeed
  split_ifs <;> omega

theorem c3_round_trip_on_twos_complement_range_witness :
    ((-128 : Int) ≤ -5 ∧ (-5 : Int) ≤ 127 ∧ (0 : Int) ≤ 200 ∧ (200 : Int) ≤ 255) ∧
    (byteToSpeed (speedToByte (-5)) = -5 ∧
     speedToByte (byteToSpeed 200) = 200 ∧
     0 ≤ speedToByte (-5) ∧ speedToByte (-5) ≤ 255 ∧
     -128 ≤ byteToSpeed 200 ∧ byteToSpeed 200 ≤ 127) :=
  ⟨by refine ⟨by decide, by decide, by decide, by decide⟩,
   c3_round_trip_on_twos_complement_range (-5) 200
     (by decide) (by decide) (by decide) (by decide)⟩

/-- C4: for speeds in [-255,255], the transmitted serial frame is
exactly the 5 bytes 0xAA, 0x55, left byte, right byte, checksum where
the checksum is the XOR of the four preceding bytes, each byte fits in
0..255, and a receiver recomputing the XOR over the first four bytes
obtains the transmitted checksum. -/
theorem c4_frame_format (l r : Int)
    (hl1 : -255 ≤ l) (hl2 : l ≤ 255) (hr1 : -255 ≤ r) (hr2 : r ≤ 255) :
    transmitFrame l r =
      [0xAA, 0x55, speedByte l, speedByte r,
       0xAA ^^^ 0x55 ^^^ speedByte l ^^^ speedByte r] ∧
    (transmitFrame l r).length = 5 ∧
    xorChecksum ((transmitFrame l r).take 4) =
      (transmitFrame l r).getLastD 0 ∧
    speedByte l < 256 ∧ speedByte r < 256 := by
  refine ⟨?_, by simp [transmitFrame], ?_, ?_, ?_⟩
  · simp [transmitFrame, xorChecksum]
  · simp [transmitFrame, xorChecksum]
  · unfold speedByte speedToByte; split_ifs <;> omega
  · unfold speedByte speedToByte; split_ifs <;> omega

theorem c4_frame_format_witness :
    ((-255 : Int) ≤ -100 ∧ (-100 : Int) ≤ 255 ∧ (-255 : Int) ≤ 200 ∧ (200 : Int) ≤ 255) ∧
    (transmitFrame (-100) 200 =
      [0xAA, 0x55, speedByte (-100), speedByte 200,
       0xAA ^^^ 0x55 ^^^ speedByte (-100) ^^^ speedByte 200] ∧
     (transmitFrame (-100) 200).length = 5 ∧
     xorChecksum ((transmitFrame (-100) 200).take 4) =
       (transmitFrame (-100) 200).getLastD 0 ∧
     speedByte (-100) < 256 ∧ speedByte 200 < 256) :=
  ⟨⟨by decide, by decide, by decide, by decide⟩,
   c4_frame_format (-100) 200 (by decide) (by decide) (by decide) (by decide)⟩

/-- C5: the Motion Intent to Motor Command mapping with truncating
integer division: with the controller connected, turn_left(150)
commands (75,150), turn_right(150) commands (150,75), forward(200)
commands (200,200), backward(200) commands (-200,-200), and in general
for speed s in [0,255] turn_left(s) commands (s/2, s), turn_right(s)
commands (s, s/2), forward(s) commands (s,s), backward(s) commands
(-s,-s), and stop commands (0,0). -/
theorem c5_intent_mapping (st : MotorState) (s : Int)
    (hc : st.is_connected = true) (h0 : 0 ≤ s) (h255 : s ≤ 255) :
    ((turnLeft 150 st).left_speed = 75 ∧ (turnLeft 150 st).right_speed = 150 ∧
      (turnLeft 150 st).command_queue = st.command_queue ++ [(75, 150)]) ∧
    ((turnRight 150 st).left_speed = 150 ∧ (turnRight 150 st).right_speed = 75 ∧
      (turnRight 150 st).command_queue = st.command_queue ++ [(150, 75)]) ∧
    ((moveForward 200 st).command_queue = st.command_queue ++ [(200, 200)]) ∧
    ((moveBackward 200 st).command_queue = st.command_queue ++ [(-200, -200)]) ∧
    ((turnLeft s st).command_queue = st.command_queue ++ [(s / 2, s)]) ∧
    ((turnRight s st).command_queue = st.command_queue ++ [(s, s / 2)]) ∧
    ((moveForward s st).command_queue = st.command_queue ++ [(s, s)]) ∧
    ((moveBackward s st).command_queue = st.command_queue ++ [(-s, -s)]) ∧
    ((motorStop st).command_queue = st.command_queue ++ [(0, 0)]) := by
  have hs : clampSpeed0 s = s := clampSpeed0_eq_self h0 h255
  have h150 : clampSpeed0 150 = 150 := by unfold clampSpeed0; decide
  have h200 : clampSpeed0 200 = 200 := by unfold clampSpeed0; decide
  refine ⟨⟨?_, ?_, ?_⟩, ⟨?_, ?_, ?_⟩, ?_, ?_, ?_, ?_, ?_, ?_, ?_⟩ <;>
    simp [turnLeft, turnRight, moveForward, moveBackward, motorStop,
          sendMotorCommand, hc, hs, h150, h200]

/-- A concrete connected controller state with an empty queue, used by
witnesses of the motor-channel theorems. -/
def mcIdleWitness : MotorState :=
  { is_connected := true, left_speed := 0, right_speed := 0,
    current_direction := .stop, command_queue := [],
    commands_sent := 0, command_errors := 0 }

theorem c5_intent_mapping_witness :
    (mcIdleWitness.is_connected = true ∧ (0 : Int) ≤ 100 ∧ (100 : Int) ≤ 255) ∧
    ((turnLeft 150 mcIdleWitness).left_speed = 75 ∧
      (turnLeft 150 mcIdleWitness).right_speed = 150 ∧
      (turnLeft 150 mcIdleWitness).command_queue =
        mcIdleWitness.command_queue ++ [(75, 150)]) ∧
    ((turnRight 150 mcIdleWitness).left_speed = 150 ∧
      (turnRight 150 mcIdleWitness).right_speed = 75 ∧
      (turnRight 150 mcIdleWitness).command_queue =
        mcIdleWitness.command_queue ++ [(150, 75)]) ∧
    ((moveForward 200 mcIdleWitness).command_queue =
        mcIdleWitness.command_queue ++ [(200, 200)]) ∧
    ((moveBackward 200 mcIdleWitness).command_queue =
        mcIdleWitness.command_queue ++ [(-200, -200)]) ∧
    ((turnLeft 100 mcIdleWitness).command_queue =
        mcIdleWitness.command_queue ++ [(100 / 2, 100)]) ∧
    ((turnRight 100 mcIdleWitness).command_queue =
        mcIdleWitness.command_queue ++ [(100, 100 / 2)]) ∧
    ((moveForward 100 mcIdleWitness).command_queue =
        mcIdleWitness.command_queue ++ [(100, 100)]) ∧
    ((moveBackward 100 mcIdleWitness).command_queue =
        mcIdleWitness.command_queue ++ [(-100, -100)]) ∧
    ((motorStop mcIdleWitness).command_queue =
        mcIdleWitness.command_queue ++ [(0, 0)]) :=
  ⟨⟨rfl, by decide, by decide⟩,
   c5_intent_mapping mcIdleWitness 100 rfl (by decide) (by decide)⟩

/-- C7: capture-manager initialization succeeds if and only if at
least one enabled camera device opened; a camera whose open fails is
excluded (its manager field stays None); in particular device 0
opening while device 1 fails yields success with exactly the front
feed active. -/
theorem c7_init_succeeds_iff_some_camera
    (front_enabled front_opens rear_enabled rear_opens : Bool) :
    ((cameraInit front_enabled front_opens rear_enabled rear_opens).success = true ↔
      ((front_enabled && front_opens) = true ∨ (rear_enabled && rear_opens) = true)) ∧
    (cameraInit front_enabled front_opens rear_enabled rear_opens).front_active =
      (front_enabled && front_opens) ∧
    (cameraInit front_enabled front_opens rear_enabled rear_opens).rear_active =
      (rear_enabled && rear_opens) ∧
    (cameraInit true true true false).success = true ∧
    (cameraInit true true true false).front_active = true ∧
    (cameraInit true true true false).rear_active = false := by
  cases front_enabled <;> cases front_opens <;>
    cases rear_enabled <;> cases rear_opens <;> decide

theorem c7_init_succeeds_iff_some_camera_witness :
    ((cameraInit true true true false).success = true ↔
      ((true && true) = true ∨ (true && false) = true)) ∧
    (cameraInit true true true false).front_active = (true && true) ∧
    (cameraInit true true true false).rear_active = (true && false) ∧
    (cameraInit true true true false).success = true ∧
    (cameraInit true true true false).front_active = true ∧
    (cameraInit true true true false).rear_active = false :=
  c7_init_succeeds_iff_some_camera true true true false

/-- C9: with a registry holding each peer id once, a connection-failed
notification tears the session down exactly once even if it fires
twice — the first close removes the entry and closes the connection
once, the second finds the id absent and is a no-op — and closing an
already-absent peer id leaves the registry unchanged and closes
nothing. -/
theorem c9_idempotent_teardown (peers : List String) (peer_id : String)
    (hnd : peers.Nodup) :
    (peer_id ∈ peers →
      onConnectionFailed peers peer_id = (peers.erase peer_id, 1) ∧
      peer_id ∉ (onConnectionFailed peers peer_id).1 ∧
      onConnectionFailed (onConnectionFailed peers peer_id).1 peer_id =
        ((onConnectionFailed peers peer_id).1, 0) ∧
      (onConnectionFailed peers peer_id).2 +
        (onConnectionFailed (onConnectionFailed peers peer_id).1 peer_id).2 = 1) ∧
    (peer_id ∉ peers →
      onConnectionFailed peers peer_id = (peers, 0)) := by
  constructor
  · intro hmem
    have h1 : onConnectionFailed peers peer_id = (peers.erase peer_id, 1) := by
      simp [onConnectionFailed, closePeerConnection, hmem]
    have hnot : peer_id ∉ peers.erase peer_id := hnd.not_mem_erase
    have h2 : onConnectionFailed (peers.erase peer_id) peer_id =
        (peers.erase peer_id, 0) := by
      simp [onConnectionFailed, closePeerConnection, hnot]
    refine ⟨h1, by simpa [h1] using hnot, by simp [h1, h2], by simp [h1, h2]⟩
  · intro hmem
    simp [onConnectionFailed, closePeerConnection, hmem]

theorem c9_idempotent_teardown_witness :
    (["alice", "bob"].Nodup) ∧
    (("bob" ∈ ["alice", "bob"] →
      onConnectionFailed ["alice", "bob"] "bob" = (["alice", "bob"].erase "bob", 1) ∧
      "bob" ∉ (onConnectionFailed ["alice", "bob"] "bob").1 ∧
      onConnectionFailed (onConnectionFailed ["alice", "bob"] "bob").1 "bob" =
        ((onConnectionFailed ["alice", "bob"] "bob").1, 0) ∧
      (onConnectionFailed ["alice", "bob"] "bob").2 +
        (onConnectionFailed (onConnectionFailed ["alice", "bob"] "bob").1 "bob").2 = 1) ∧
     ("bob" ∉ ["alice", "bob"] →
      onConnectionFailed ["alice", "bob"] "bob" = (["alice", "bob"], 0))) :=
  ⟨by decide, c9_idempotent_teardown ["alice", "bob"] "bob" (by decide)⟩

/-- C10: with the controller disconnected, every motion operation
leaves the command queue unchanged (nothing is enqueued, no failure)
yet still records the commanded speeds and direction, so the status
snapshot afterwards reports the commanded direction and speeds even
though nothing was transmitted. -/
theorem c10_disconnected_state_updates (st : MotorState) (s l r : Int)
    (hc : st.is_connected = false) :
    (moveForward s st).command_queue = st.command_queue ∧
    (moveBackward s st).command_queue = st.command_queue ∧
    (turnLeft s st).command_queue = st.command_queue ∧
    (turnRight s st).command_queue = st.command_queue ∧
    (motorStop st).command_queue = st.command_queue ∧
    (setMotorSpeed l r st).command_queue = st.command_queue ∧
    (getStatus (moveForward s st)).left_speed = clampSpeed0 s ∧
    (getStatus (moveForward s st)).right_speed = clampSpeed0 s ∧
    (getStatus (moveForward s st)).current_direction = "FORWARD" ∧
    (getStatus (moveBackward s st)).left_speed = -clampSpeed0 s ∧
    (getStatus (moveBackward s st)).right_speed = -clampSpeed0 s ∧
    (getStatus (moveBackward s st)).current_direction = "BACKWARD" ∧
    (getStatus (turnLeft s st)).left_speed = clampSpeed0 s / 2 ∧
    (getStatus (turnLeft s st)).right_speed = clampSpeed0 s ∧
    (getStatus (turnLeft s st)).current_direction = "LEFT" ∧
    (getStatus (turnRight s st)).left_speed = clampSpeed0 s ∧
    (getStatus (turnRight s st)).right_speed = clampSpeed0 s / 2 ∧
    (getStatus (turnRight s st)).current_direction = "RIGHT" ∧
    (getStatus (motorStop st)).left_speed = 0 ∧
    (getStatus (motorStop st)).right_speed = 0 ∧
    (getStatus (motorStop st)).current_direction = "STOP" ∧
    (getStatus (setMotorSpeed l r st)).left_speed = clampSpeed l ∧
    (getStatus (setMotorSpeed l r st)).right_speed = clampSpeed r ∧
    (getStatus (moveForward s st)).commands_sent = st.commands_sent := by
  refine ⟨?_, ?_, ?_, ?_, ?_, ?_, ?_, ?_, ?_, ?_, ?_, ?_, ?_, ?_, ?_, ?_,
         ?_, ?_, ?_, ?_, ?_, ?_, ?_, ?_⟩ <;>
    simp [moveForward, moveBackward, turnLeft, turnRight, motorStop,
          setMotorSpeed, sendMotorCommand, getStatus, MotorDirection.pyName, hc]

/-- A concrete disconnected controller state used by the C10 witness. -/
def mcOffline : MotorState :=
  { is_connected := false, left_speed := 0, right_speed := 0,
    current_direction := .stop, command_queue := [],
    commands_sent := 0, command_errors := 0 }

theorem c10_disconnected_state_updates_witness :
    (mcOffline.is_connected = false) ∧
    ((moveForward 200 mcOffline).command_queue = mcOffline.command_queue ∧
     (moveBackward 200 mcOffline).command_queue = mcOffline.command_queue ∧
     (turnLeft 200 mcOffline).command_queue = mcOffline.command_queue ∧
     (turnRight 200 mcOffline).command_queue = mcOffline.command_queue ∧
     (motorStop mcOffline).command_queue = mcOffline.command_queue ∧
     (setMotorSpeed 70 (-80) mcOffline).command_queue = mcOffline.command_queue ∧
     (getStatus (moveForward 200 mcOffline)).left_speed = clampSpeed0 200 ∧
     (getStatus (moveForward 200 mcOffline)).right_speed = clampSpeed0 200 ∧
     (getStatus (moveForward 200 mcOffline)).current_direction = "FORWARD" ∧
     (getStatus (moveBackward 200 mcOffline)).left_speed = -clampSpeed0 200 ∧
     (getStatus (moveBackward 200 mcOffline)).right_speed = -clampSpeed0 200 ∧
     (getStatus (moveBackward 200 mcOffline)).current_direction = "BACKWARD" ∧
     (getStatus (turnLeft 200 mcOffline)).left_speed = clampSpeed0 200 / 2 ∧
     (getStatus (turnLeft 200 mcOffline)).right_speed = clampSpeed0 200 ∧
     (getStatus (turnLeft 200 mcOffline)).current_direction = "LEFT" ∧
     (getStatus (turnRight 200 mcOffline)).left_speed = clampSpeed0 200 ∧
     (getStatus (turnRight 200 mcOffline)).right_speed = clampSpeed0 200 / 2 ∧
     (getStatus (turnRight 200 mcOffline)).current_direction = "RIGHT" ∧
     (getStatus (motorStop mcOffline)).left_speed = 0 ∧
     (getStatus (motorStop mcOffline)).right_speed = 0 ∧
     (getStatus (motorStop mcOffline)).current_direction = "STOP" ∧
     (getStatus (setMotorSpeed 70 (-80) mcOffline)).left_speed = clampSpeed 70 ∧
     (getStatus (setMotorSpeed 70 (-80) mcOffline)).right_speed = clampSpeed (-80) ∧
     (getStatus (moveForward 200 mcOffline)).commands_sent = mcOffline.commands_sent) :=
  ⟨rfl, c10_disconnected_state_updates mcOffline 200 70 (-80) rfl⟩

/-- A concrete connected controller state with one pending queued
command, used to refute the claimed queue-bypass of emergency stop. -/
def mcBacklog : MotorState :=
  { is_connected := true, left_speed := 100, right_speed := 100,
    current_direction := .forward, command_queue := [(100, 100)],
    commands_sent := 0, command_errors := 0 }

/-- C1 counterexample: with one command (100,100) pending,
emergency_stop does not clear the queue (the queue becomes
[(100,100),(0,0)], not [(0,0)]), the next transmitted frame is the
(100,100) frame rather than the zero-speed frame, and a later
submission is still accepted (submissions are not disabled). -/
theorem c1_counterexample :
    (emergencyStop mcBacklog).command_queue = [(100, 100), (0, 0)] ∧
    (emergencyStop mcBacklog).command_queue ≠ [(0, 0)] ∧
    (commandLoopTick (emergencyStop mcBacklog)).2 = some (transmitFrame 100 100) ∧
    transmitFrame 100 100 ≠ transmitFrame 0 0 ∧
    (setMotorSpeed 50 50 (emergencyStop mcBacklog)).command_queue =
      [(100, 100), (0, 0), (50, 50)] := by
  refine ⟨?_, ?_, ?_, ?_, ?_⟩ <;>
    simp [emergencyStop, motorStop, setMotorSpeed, sendMotorCommand,
          commandLoopTick, mcBacklog, clampSpeed, transmitFrame,
          speedByte, speedToByte, xorChecksum]

/-- C1 (amended): emergency_stop() does not bypass the motor command
queue: it is exactly stop() — it records zero speeds and the STOP
direction and appends the (0,0) command at the tail of the queue,
without clearing pending commands; draining the queue transmits every
previously pending frame first and the zero-speed frame last, and
further submissions remain enabled (no disable flag exists). -/
theorem c1_emergency_stop_enqueues_zero (st : MotorState)
    (hc : st.is_connected = true) :
    emergencyStop st = motorStop st ∧
    (emergencyStop st).command_queue = st.command_queue ++ [(0, 0)] ∧
    (emergencyStop st).left_speed = 0 ∧
    (emergencyStop st).right_speed = 0 ∧
    (emergencyStop st).current_direction = .stop ∧
    (runTicks (emergencyStop st) (st.command_queue.length + 1)).2 =
      (st.command_queue.map fun p => transmitFrame p.1 p.2) ++ [transmitFrame 0 0] ∧
    (setMotorSpeed 100 100 (emergencyStop st)).command_queue =
      st.command_queue ++ [(0, 0), (100, 100)] := by
  have hq : (emergencyStop st).command_queue = st.command_queue ++ [(0, 0)] := by
    simp [emergencyStop, motorStop, sendMotorCommand, hc]
  have hconn : (emergencyStop st).is_connected = true := by
    simp [emergencyStop, motorStop, sendMotorCommand, hc]
  have hlen : (st.command_queue ++ [(0, 0)]).length = st.command_queue.length + 1 := by
    simp
  have hdrain := runTicks_drains (st.command_queue ++ [((0 : Int), (0 : Int))])
    (emergencyStop st) hq hconn
  refine ⟨rfl, hq, ?_, ?_, ?_, ?_, ?_⟩
  · simp [emergencyStop, motorStop, sendMotorCommand, hc]
  · simp [emergencyStop, motorStop, sendMotorCommand, hc]
  · simp [emergencyStop, motorStop, sendMotorCommand, hc]
  · rw [← hlen]
    simpa using hdrain.2.2
  · have h100 : clampSpeed 100 = 100 := by unfold clampSpeed; decide
    simp [setMotorSpeed, sendMotorCommand, hq, hconn, h100]

theorem c1_emergency_stop_enqueues_zero_witness :
    (mcBacklog.is_connected = true) ∧
    (emergencyStop mcBacklog = motorStop mcBacklog ∧
     (emergencyStop mcBacklog).command_queue = mcBacklog.command_queue ++ [(0, 0)] ∧
     (emergencyStop mcBacklog).left_speed = 0 ∧
     (emergencyStop mcBacklog).right_speed = 0 ∧
     (emergencyStop mcBacklog).current_direction = .stop ∧
     (runTicks (emergencyStop mcBacklog) (mcBacklog.command_queue.length + 1)).2 =
       (mcBacklog.command_queue.map fun p => transmitFrame p.1 p.2) ++
         [transmitFrame 0 0] ∧
     (setMotorSpeed 100 100 (emergencyStop mcBacklog)).command_queue =
       mcBacklog.command_queue ++ [(0, 0), (100, 100)]) :=
  ⟨rfl, c1_emergency_stop_enqueues_zero mcBacklog rfl⟩

/-- A concrete connected controller state with an empty queue, used to
refute the claimed queue-discarding behavior of emergency stop. -/
def mcEmptyQueue : MotorState :=
  { is_connected := true, left_speed := 0, right_speed := 0,
    current_direction := .stop, command_queue := [],
    commands_sent := 0, command_errors := 0 }

/-- C2 counterexample: submit A = (50,60), then an emergency stop;
the queued command A is not discarded — the queue is [(50,60),(0,0)]
and the next transmitted frame is A's frame, not the zero-speed
frame. -/
theorem c2_counterexample :
    (emergencyStop (setMotorSpeed 50 60 mcEmptyQueue)).command_queue =
      [(50, 60), (0, 0)] ∧
    (commandLoopTick (emergencyStop (setMotorSpeed 50 60 mcEmptyQueue))).2 =
      some (transmitFrame 50 60) ∧
    (commandLoopTick (emergencyStop (setMotorSpeed 50 60 mcEmptyQueue))).2 ≠
      some (transmitFrame 0 0) := by
  refine ⟨?_, ?_, ?_⟩ <;>
    simp [emergencyStop, motorStop, setMotorSpeed, sendMotorCommand,
          commandLoopTick, mcEmptyQueue, clampSpeed, transmitFrame,
          speedByte, speedToByte, xorChecksum]

/-- C2 (amended): motor commands submitted while connected in order
A, B, C are transmitted over serial in exactly that order (strict
FIFO); an emergency stop submitted between them does not discard the
queued commands — it enqueues the zero-speed command in the same FIFO
order, so the zero-speed frame transmits after the previously queued
commands, not instead of them. -/
theorem c2_fifo_order (st : MotorState) (a1 a2 b1 b2 c1 c2 : Int)
    (hc : st.is_connected = true) (hq : st.command_queue = [])
    (ha1 : -255 ≤ a1) (ha2 : a1 ≤ 255) (ha3 : -255 ≤ a2) (ha4 : a2 ≤ 255)
    (hb1 : -255 ≤ b1) (hb2 : b1 ≤ 255) (hb3 : -255 ≤ b2) (hb4 : b2 ≤ 255)
    (hc1 : -255 ≤ c1) (hc2 : c1 ≤ 255) (hc3 : -255 ≤ c2) (hc4 : c2 ≤ 255) :
    (runTicks (setMotorSpeed c1 c2 (setMotorSpeed b1 b2 (setMotorSpeed a1 a2 st))) 3).2 =
      [transmitFrame a1 a2, transmitFrame b1 b2, transmitFrame c1 c2] ∧
    (runTicks (setMotorSpeed b1 b2 (emergencyStop (setMotorSpeed a1 a2 st))) 3).2 =
      [transmitFrame a1 a2, transmitFrame 0 0, transmitFrame b1 b2] := by
  have ea1 : clampSpeed a1 = a1 := clampSpeed_eq_self ha1 ha2
  have ea2 : clampSpeed a2 = a2 := clampSpeed_eq_self ha3 ha4
  have eb1 : clampSpeed b1 = b1 := clampSpeed_eq_self hb1 hb2
  have eb2 : clampSpeed b2 = b2 := clampSpeed_eq_self hb3 hb4
  have ec1 : clampSpeed c1 = c1 := clampSpeed_eq_self hc1 hc2
  have ec2 : clampSpeed c2 = c2 := clampSpeed_eq_self hc3 hc4
  constructor
  · have hq3 : (setMotorSpeed c1 c2 (setMotorSpeed b1 b2 (setMotorSpeed a1 a2 st))).command_queue =
        [(a1, a2), (b1, b2), (c1, c2)] := by
      simp [setMotorSpeed, sendMotorCommand, hc, hq, ea1, ea2, eb1, eb2, ec1, ec2]
    have hconn3 : (setMotorSpeed c1 c2 (setMotorSpeed b1 b2 (setMotorSpeed a1 a2 st))).is_connected = true := by
      simp [setMotorSpeed, sendMotorCommand, hc]
    simpa using (runTicks_drains [(a1, a2), (b1, b2), (c1, c2)] _ hq3 hconn3).2.2
  · have hq3 : (setMotorSpeed b1 b2 (emergencyStop (setMotorSpeed a1 a2 st))).command_queue =
        [(a1, a2), (0, 0), (b1, b2)] := by
      simp [setMotorSpeed, emergencyStop, motorStop, sendMotorCommand,
            hc, hq, ea1, ea2, eb1, eb2]
    have hconn3 : (setMotorSpeed b1 b2 (emergencyStop (setMotorSpeed a1 a2 st))).is_connected = true := by
      simp [setMotorSpeed, emergencyStop, motorStop, sendMotorCommand, hc]
    simpa using (runTicks_drains [(a1, a2), ((0 : Int), (0 : Int)), (b1, b2)] _ hq3 hconn3).2.2

theorem c2_fifo_order_witness :
    (mcIdleWitness.is_connected = true ∧ mcIdleWitness.command_queue = []) ∧
    ((runTicks (setMotorSpeed 30 40 (setMotorSpeed 20 25 (setMotorSpeed 10 15 mcIdleWitness))) 3).2 =
      [transmitFrame 10 15, transmitFrame 20 25, transmitFrame 30 40] ∧
     (runTicks (setMotorSpeed 20 25 (emergencyStop (setMotorSpeed 10 15 mcIdleWitness))) 3).2 =
      [transmitFrame 10 15, transmitFrame 0 0, transmitFrame 20 25]) :=
  ⟨⟨rfl, rfl⟩,
   c2_fifo_order mcIdleWitness 10 15 20 25 30 40 rfl rfl
     (by decide) (by decide) (by decide) (by decide)
     (by decide) (by decide) (by decide) (by decide)
     (by decide) (by decide) (by decide) (by decide)⟩

theorem pushBounded_foldl {α : Type} (N : Nat) (hN : 0 < N) :
    ∀ (xs buf : List α), buf.length ≤ N →
      List.foldl (pushBounded N) buf xs =
        (buf ++ xs).drop (buf.length + xs.length - N)
  | [], buf, hb => by
    simp only [List.foldl_nil, List.append_nil, List.length_nil, Nat.add_zero]
    have h0 : buf.length - N = 0 := by omega
    rw [h0, List.drop_zero]
  | x :: rest, buf, hb => by
    rw [List.foldl_cons]
    by_cases hlt : buf.length < N
    · have hp : pushBounded N buf x = buf ++ [x] := by
        simp [pushBounded, hlt]
      have hlen : (buf ++ [x]).length ≤ N := by simp; omega
      rw [hp, pushBounded_foldl N hN rest (buf ++ [x]) hlen]
      have harith : (buf ++ [x]).length + rest.length - N =
          buf.length + (x :: rest).length - N := by simp; omega
      rw [harith, List.append_assoc, List.singleton_append]
    · have heq : buf.length = N := by omega
      have hp : pushBounded N buf x = buf.drop 1 ++ [x] := by
        simp [pushBounded, hlt]
      have hlen : (buf.drop 1 ++ [x]).length ≤ N := by
        simp [List.length_drop]; omega
      rw [hp, pushBounded_foldl N hN rest (buf.drop 1 ++ [x]) hlen]
      have hd1 : (buf ++ x :: rest).drop 1 = buf.drop 1 ++ x :: rest :=
        List.drop_append_of_le_length (by omega)
      have harith : buf.length + (x :: rest).length - N =
          1 + ((buf.drop 1 ++ [x]).length + rest.length - N) := by
        simp [List.length_drop]; omega
      rw [harith, ← List.drop_drop, hd1, List.append_assoc, List.singleton_append]

theorem getLast?_drop_of_lt {α : Type} (xs : List α) (k : Nat) (hk : k < xs.length) :
    (xs.drop k).getLast? = xs.getLast? := by
  have hne : xs.drop k ≠ [] := by
    rw [Ne, List.drop_eq_nil_iff]; omega
  conv_rhs => rw [← List.take_append_drop k xs]
  exact (List.getLast?_append_of_ne_nil _ hne).symm

/-- C6: for any capacity N > 0 and any sequence of pushes into an
initially empty bounded frame buffer, the buffer afterwards holds
exactly the last N pushed frames in arrival order (so with N+k pushes
the oldest k were evicted and never more than N are retained), the
latest-frame read returns the most recently pushed frame, and the read
on a buffer with no pushes returns none. Push is a total function:
it never blocks or fails. -/
theorem c6_bounded_buffer {α : Type} (N : Nat) (xs : List α) (hN : 0 < N) :
    List.foldl (pushBounded N) ([] : List α) xs = xs.drop (xs.length - N) ∧
    (List.foldl (pushBounded N) ([] : List α) xs).length = min xs.length N ∧
    (xs ≠ [] → bufferLatest (List.foldl (pushBounded N) ([] : List α) xs) = xs.getLast?) ∧
    bufferLatest ([] : List α) = none := by
  have hfold : List.foldl (pushBounded N) ([] : List α) xs = xs.drop (xs.length - N) := by
    simpa using pushBounded_foldl N hN xs [] (by simp)
  refine ⟨hfold, ?_, ?_, rfl⟩
  · rw [hfold, List.length_drop]; omega
  · intro hne
    rw [hfold]
    unfold bufferLatest
    rcases Nat.lt_or_ge (xs.length - N) xs.length with hlt | hge
    · exact getLast?_drop_of_lt xs _ hlt
    · have hx : xs.length = 0 := by omega
      simp [List.eq_nil_of_length_eq_zero hx] at hne

theorem c6_bounded_buffer_witness :
    (0 < 3 ∧ ([1, 2, 3, 4, 5] : List Nat) ≠ []) ∧
    (List.foldl (pushBounded 3) ([] : List Nat) [1, 2, 3, 4, 5] =
      [1, 2, 3, 4, 5].drop ([1, 2, 3, 4, 5].length - 3) ∧
     (List.foldl (pushBounded 3) ([] : List Nat) [1, 2, 3, 4, 5]).length =
       min [1, 2, 3, 4, 5].length 3 ∧
     bufferLatest (List.foldl (pushBounded 3) ([] : List Nat) [1, 2, 3, 4, 5]) =
       ([1, 2, 3, 4, 5] : List Nat).getLast? ∧
     bufferLatest ([] : List Nat) = none) :=
  ⟨⟨by decide, by decide⟩,
   have h := c6_bounded_buffer 3 ([1, 2, 3, 4, 5] : List Nat) (by decide)
   ⟨h.1, h.2.1, h.2.2.1 (by decide), h.2.2.2⟩⟩

theorem readFrame_preserves_opened (st : CamState) (ok : Bool) :
    (readFrame st ok).1.is_opened = st.is_opened := by
  unfold readFrame; split_ifs <;> rfl

theorem readMany_preserves_opened (st : CamState) (outcomes : List Bool) :
    (readMany st outcomes).is_opened = st.is_opened := by
  induction outcomes generalizing st with
  | nil => rfl
  | cons ok rest ih =>
    show (readMany (readFrame st ok).1 rest).is_opened = st.is_opened
    rw [ih, readFrame_preserves_opened]

/-- C8: on an opened camera, a failed device read increments the
consecutive-error counter, returns no frame, and logs the
degraded-device warning exactly when the new count exceeds the
threshold (10); a successful read resets the counter to zero,
increments the frame counter and returns a frame; and over any
sequence of read outcomes the loop keeps going — the device is never
closed by read failures, so the loop never self-terminates. -/
theorem c8_read_error_handling (st : CamState) (outcomes : List Bool)
    (ho : st.is_opened = true) :
    readFrame st false =
      ({ st with error_count := st.error_count + 1 }, none,
       decide (st.error_count + 1 > cameraErrorThreshold)) ∧
    readFrame st true =
      ({ st with error_count := 0, frame_count := st.frame_count + 1 },
       some (), false) ∧
    (readMany st outcomes).is_opened = true := by
  refine ⟨?_, ?_, ?_⟩
  · simp [readFrame, ho]
  · simp [readFrame, ho]
  · rw [readMany_preserves_opened, ho]

theorem c8_read_error_handling_witness :
    (({ is_opened := true, frame_count := 7, error_count := 10 } : CamState).is_opened = true) ∧
    (readFrame { is_opened := true, frame_count := 7, error_count := 10 } false =
      ({ is_opened := true, frame_count := 7, error_count := 11 }, none, true) ∧
     readFrame { is_opened := true, frame_count := 7, error_count := 10 } true =
      ({ is_opened := true, frame_count := 8, error_count := 0 }, some (), false) ∧
     (readMany { is_opened := true, frame_count := 7, error_count := 10 }
        [false, false, true, false]).is_opened = true) :=
  ⟨rfl, by
    have h := c8_read_error_handling
      { is_opened := true, frame_count := 7, error_count := 10 }
      [false, false, true, false] rfl
    exact ⟨h.1, h.2.1, h.2.2⟩⟩
